import Mathlib

/-!
Shallow embedding of `src/ServerScriptService/Services/Item/ItemService.ts`
(the purchase-and-placement pipeline of factorial-defence-rbx) together with
proofs of its specified properties.

Modelling conventions:
* The currency enum (`ReplicatedStorage/Enums/Currency`) is external to the
  source file under verification; its members are abstracted as a list
  `currencies : List C` over an arbitrary type `C` with decidable equality,
  matching `getSymmetricEnumMembers(Currency)`.
* The item registry (`ItemRegistry`) is a read-only lookup
  `String → Option (Register C)`.
* The placement normalizer (`ItemMovementService.AdjustCFrame`) is an
  abstract pure function `CFrame → CFrame`.
* The world-object binder (`Components.getComponent`) is abstracted as a
  predicate `WorldObject → Bool`; when it yields a component the component is
  the (mutated) world object itself.
* `HttpService.GenerateGUID` is abstracted as a string parameter `genGUID`
  standing for the value produced by the generator on this call.
* A `CFrame` is modelled by its position (a triple of rationals); orientation
  plays no role in any verified property.
* Roblox's `WaitForChild` with no timeout yields forever when no child of the
  given name exists; divergence is modelled by the outer `none` of
  `GetItem`'s result.
-/

namespace ItemServiceModel

/-- The `GenericError` enum: the two members used by `ItemService`. -/
inductive GenericError where
  | NOT_FOUND
  | FORBIDDEN
deriving DecidableEq

/-- The `PricingExchangeType` enum. -/
inductive PricingExchangeType where
  | BUY
  | SELL
deriving DecidableEq

/-- A world pose, reduced to its position components. -/
structure CFrame where
  x : Rat
  y : Rat
  z : Rat
deriving DecidableEq

/-- An item template from `ItemRegistry`: its price table (a partial map from
exchange type to a partial map from currency to amount) and the vertical size
of its model's primary part. Prices are natural numbers (the data model
declares amounts non-negative). -/
structure Register (C : Type) where
  price : PricingExchangeType → Option (C → Option Nat)
  primaryPartSizeY : Rat

/-- A cloned item model living in the world: its `Name`, pose and the
attributes stamped on it by `CreateItem`, plus whether it carries the ITEM
collection tag. -/
structure WorldObject where
  name : String
  pose : CFrame
  attrUser : Nat
  attrInstanceUUID : String
  attrRegisterUUID : String
  tagged : Bool
deriving DecidableEq

/-- The mutable state touched by the service: the purchasing user's per-
currency balances (`Balance_<currency>` attributes), the user's `PlacedItems`
map (association list keyed by instance UUID, in insertion order), and the
children of `Workspace`. -/
structure State (C : Type) where
  balances : C → Int
  placedItems : List (String × WorldObject)
  workspace : List WorldObject

/-- Observable steps of `CreateItem`, in program order: a `PivotTo`, the
parenting of the model into `Workspace`, the `AddTag` call, and the
`getComponent` binding step. -/
inductive Event where
  | applyPose (c : CFrame)
  | spawn
  | tag
  | bind
deriving DecidableEq

/-- The outcome of a service call: `Result.ok`, `Result.err`, or an abnormal
abort raised by a failed `assert`. -/
inductive Outcome where
  | ok (item : WorldObject)
  | err (e : GenericError)
  | panic
deriving DecidableEq

/-- A service call's outcome together with the state it leaves behind and the
trace of observable steps it performed. -/
structure CallResult (C : Type) where
  outcome : Outcome
  state : State C
  trace : List Event

/-- The amount `table[currency] ?? 0`: a price table entry defaults to zero
for an unlisted currency. -/
def requiredAmount {C : Type} (table : C → Option Nat) (c : C) : Nat :=
  (table c).getD 0

/-- The BUY amount a register demands for a currency: zero when the register
has no BUY entry at all or the currency is unlisted. -/
def registerRequired {C : Type} (reg : Register C) (c : C) : Nat :=
  match reg.price PricingExchangeType.BUY with
  | none => 0
  | some table => requiredAmount table c

/-- Line 44: `forEach` over the currency enum members subtracting each
required amount from the matching balance attribute. -/
def debitBalances {C : Type} [DecidableEq C] (bal : C → Int) (currencies : List C)
    (table : C → Option Nat) : C → Int :=
  currencies.foldl (fun b c => Function.update b c (b c - requiredAmount table c)) bal

/-- Luau `Map.set`: overwrite the value at an existing key in place, append a
fresh key at the end. -/
def setEntry (m : List (String × WorldObject)) (k : String) (v : WorldObject) :
    List (String × WorldObject) :=
  if m.any (fun p => p.1 == k) then m.map (fun p => if p.1 == k then (k, v) else p)
  else m ++ [(k, v)]

/-- Luau `Map.get`: the value stored at a key, if any. -/
def getEntry (m : List (String × WorldObject)) (k : String) : Option WorldObject :=
  (m.find? (fun p => p.1 == k)).map Prod.snd

/-- Line 68: the default candidate pose when no CFrame is supplied — x and z
zero, y at half the primary part's height (the constructor pivoted every
registry model to the origin, so this puts the bottom of the primary part at
y = 0). -/
def defaultCFrame {C : Type} (reg : Register C) : CFrame :=
  ⟨0, reg.primaryPartSizeY / 2, 0⟩

/-- The vertical coordinate of the object's anchor point (the bottom of the
primary part) when the model is pivoted to pose `c`. -/
def anchorY (c : CFrame) (sizeY : Rat) : Rat :=
  c.y - sizeY / 2

/-- Lines 65–82: the cloned model after `PivotTo(cframe)`, attribute
stamping, renaming, parenting and tagging — the object handed to the binder. -/
def spawnedModel {C : Type} (_reg : Register C) (userId : Nat)
    (instanceUUID registerUUID : String) (cframe : CFrame) : WorldObject :=
  { name := instanceUUID
    pose := cframe
    attrUser := userId
    attrInstanceUUID := instanceUUID
    attrRegisterUUID := registerUUID
    tagged := true }

/-- Lines 58–98, `CreateItem`: resolve the register (else `NOT_FOUND`), clone
the model, default the CFrame, round it via the normalizer, apply the raw
pose, stamp and spawn and tag the model, bind it (a failed binding trips the
`assert` — abnormal abort), re-pivot to the rounded pose, and record the
component in the user's `PlacedItems` keyed by its `ItemInstanceUUID`. -/
def CreateItem {C : Type} (registry : String → Option (Register C))
    (adjustCFrame : CFrame → CFrame) (getComponent : WorldObject → Bool)
    (userId : Nat) (st : State C) (registerUUID instanceUUID : String)
    (cframeArg : Option CFrame) : CallResult C :=
  match registry registerUUID with
  | none => ⟨.err .NOT_FOUND, st, []⟩
  | some reg =>
      let cframe := cframeArg.getD (defaultCFrame reg)
      let rounded := adjustCFrame cframe
      let model := spawnedModel reg userId instanceUUID registerUUID cframe
      if getComponent model then
        let component : WorldObject := { model with pose := rounded }
        ⟨.ok component,
         { st with
            placedItems := setEntry st.placedItems component.attrInstanceUUID component
            workspace := st.workspace ++ [component] },
         [.applyPose cframe, .spawn, .tag, .bind, .applyPose rounded]⟩
      else
        ⟨.panic, { st with workspace := st.workspace ++ [model] },
         [.applyPose cframe, .spawn, .tag, .bind]⟩

/-- Lines 31–48, `PurchaseItem`: resolve the register (else `NOT_FOUND`),
reject unpurchasable items (no BUY table → `FORBIDDEN`), reject if any
currency's balance is below its required amount (`FORBIDDEN`, before any
mutation), debit every currency, then delegate to `CreateItem` with a
generated instance UUID. -/
def PurchaseItem {C : Type} [DecidableEq C] (registry : String → Option (Register C))
    (adjustCFrame : CFrame → CFrame) (getComponent : WorldObject → Bool)
    (currencies : List C) (genGUID : String) (userId : Nat) (st : State C)
    (registerUUID : String) (position : Option CFrame) : CallResult C :=
  match registry registerUUID with
  | none => ⟨.err .NOT_FOUND, st, []⟩
  | some register =>
      match register.price PricingExchangeType.BUY with
      | none => ⟨.err .FORBIDDEN, st, []⟩
      | some buyTable =>
          if currencies.any (fun c => decide (st.balances c < (requiredAmount buyTable c : Int))) then
            ⟨.err .FORBIDDEN, st, []⟩
          else
            let st2 : State C := { st with balances := debitBalances st.balances currencies buyTable }
            CreateItem registry adjustCFrame getComponent userId st2 registerUUID genGUID position

/-- Lines 103–107, `GetItem`: `WaitForChild(uuid)` yields until a Workspace
child of that name exists — with no timeout it never returns when none ever
will (outer `none`); otherwise the binder lookup is wrapped into an
`Option`. The state is returned untouched. -/
def GetItem {C : Type} (getComponent : WorldObject → Bool) (st : State C)
    (uuid : String) : Option (Option WorldObject) × State C :=
  match st.workspace.find? (fun o => o.name == uuid) with
  | none => (none, st)
  | some model => (some (if getComponent model then some model else none), st)

/-! Concrete instantiation used by the witness theorems: one currency GOLD,
three registry entries (T1 buys for 50 GOLD, T2 for 200 GOLD, T3 has no BUY
entry), a user with 100 GOLD, an identity normalizer, and a binder that
always (respectively never) yields a component. -/

/-- Witness currency enum: a single member, GOLD. -/
def exCurrencies : List String := ["GOLD"]

/-- Witness register T1: BUY price 50 GOLD, primary part height 4. -/
def exRegT1 : Register String :=
  ⟨fun t => match t with
    | PricingExchangeType.BUY => some (fun c => if c = "GOLD" then some 50 else none)
    | PricingExchangeType.SELL => none, 4⟩

/-- Witness register T2: BUY price 200 GOLD. -/
def exRegT2 : Register String :=
  ⟨fun t => match t with
    | PricingExchangeType.BUY => some (fun c => if c = "GOLD" then some 200 else none)
    | PricingExchangeType.SELL => none, 4⟩

/-- Witness register T3: no BUY entry. -/
def exRegT3 : Register String := ⟨fun _ => none, 4⟩

/-- Witness registry holding T1, T2 and T3. -/
def exRegistry : String → Option (Register String) :=
  fun id =>
    if id = "T1" then some exRegT1
    else if id = "T2" then some exRegT2
    else if id = "T3" then some exRegT3
    else none

/-- Witness balances: 100 GOLD. -/
def exBalances : String → Int := fun c => if c = "GOLD" then 100 else 0

/-- Witness state: 100 GOLD, nothing placed, empty workspace. -/
def exState : State String := ⟨exBalances, [], []⟩

/-- Witness normalizer: the identity (its value is irrelevant to every
property proved below). -/
def exAdjust : CFrame → CFrame := fun c => c

/-- Witness binder that always yields a component. -/
def exBindOk : WorldObject → Bool := fun _ => true

/-- Witness binder that never yields a component. -/
def exBindFail : WorldObject → Bool := fun _ => false

/-- The component produced by buying T1 with generated GUID g1 in the witness
setup (default pose: height 4, so the anchor rests at ground level). -/
def exComponentT1 : WorldObject := ⟨"g1", defaultCFrame exRegT1, 7, "g1", "T1", true⟩

/-- A pre-existing placed object with instance UUID dup, for the duplicate-id
scenario. -/
def exOld : WorldObject := ⟨"dup", ⟨1, 2, 3⟩, 7, "dup", "T1", true⟩

/-- Witness state for the duplicate-id scenario: exOld is placed and in the
workspace. -/
def exStateDup : State String := ⟨exBalances, [("dup", exOld)], [exOld]⟩

/-! Helper lemmas shared by the claim proofs. -/

/-- On a duplicate-free currency list (an enum member list), the debit loop
subtracts exactly the required amount from each listed currency and touches
nothing else. -/
theorem debitBalances_eq {C : Type} [DecidableEq C] (currencies : List C)
    (hnd : currencies.Nodup) (bal : C → Int) (table : C → Option Nat) (c : C) :
    debitBalances bal currencies table c =
      if c ∈ currencies then bal c - (requiredAmount table c : Int) else bal c := by
  induction currencies generalizing bal with
  | nil => simp [debitBalances]
  | cons c0 cs ih =>
      rcases List.nodup_cons.mp hnd with ⟨hc0, hcs⟩
      have hstep : debitBalances bal (c0 :: cs) table =
          debitBalances (Function.update bal c0 (bal c0 - requiredAmount table c0)) cs table := rfl
      rw [hstep, ih hcs]
      by_cases h : c = c0
      · subst h
        simp [Function.update_same, hc0]
      · simp [Function.update_noteq h, h]

/-- Setting a fresh key appends it at the end of the map. -/
theorem setEntry_fresh (m : List (String × WorldObject)) (k : String) (v : WorldObject)
    (h : ∀ p ∈ m, p.1 ≠ k) : setEntry m k v = m ++ [(k, v)] := by
  unfold setEntry
  rw [if_neg]
  intro hany
  rw [List.any_eq_true] at hany
  obtain ⟨p, hp, hpk⟩ := hany
  exact h p hp (by simpa using hpk)

/-- Setting an existing key leaves the number of entries unchanged. -/
theorem setEntry_length_of_mem (m : List (String × WorldObject)) (k : String)
    (v : WorldObject) (h : m.any (fun p => p.1 == k) = true) :
    (setEntry m k v).length = m.length := by
  unfold setEntry
  rw [if_pos h]
  exact List.length_map m _

/-- Setting an existing key makes lookup return the new value. -/
theorem getEntry_setEntry_of_mem (m : List (String × WorldObject)) (k : String)
    (v : WorldObject) (h : m.any (fun p => p.1 == k) = true) :
    getEntry (setEntry m k v) k = some v := by
  unfold setEntry
  rw [if_pos h]
  unfold getEntry
  induction m with
  | nil => simp at h
  | cons p ps ih =>
      by_cases hpk : p.1 == k
      · simp [List.find?, hpk]
      · have h' : ps.any (fun q => q.1 == k) = true := by
          rcases List.any_eq_true.mp h with ⟨q, hq, hqk⟩
          rcases List.mem_cons.mp hq with rfl | hq'
          · exact absurd hqk (by simpa using hpk)
          · exact List.any_eq_true.mpr ⟨q, hq', hqk⟩
        have hpk' : (p.1 == k) = false := by simpa using hpk
        simpa [List.find?, hpk'] using ih h'

/-- `CreateItem` never touches balances. -/
theorem CreateItem_balances {C : Type} (registry : String → Option (Register C))
    (adjustCFrame : CFrame → CFrame) (getComponent : WorldObject → Bool)
    (userId : Nat) (st : State C) (registerUUID instanceUUID : String)
    (cframeArg : Option CFrame) :
    (CreateItem registry adjustCFrame getComponent userId st registerUUID instanceUUID
      cframeArg).state.balances = st.balances := by
  unfold CreateItem
  cases registry registerUUID with
  | none => rfl
  | some reg =>
      dsimp only
      split <;> rfl

/-- `GetItem` returns the state untouched. -/
theorem GetItem_state {C : Type} (getComponent : WorldObject → Bool) (st : State C)
    (uuid : String) : (GetItem getComponent st uuid).2 = st := by
  unfold GetItem
  split <;> rfl

/-- Claim C3: for every template that exists in the registry but has no BUY
entry in its price table, and every user, `PurchaseItem` returns the
`FORBIDDEN` error and leaves the whole user state — in particular every
balance — unchanged. -/
theorem purchaseItem_noBuy_forbidden {C : Type} [DecidableEq C]
    (registry : String → Option (Register C)) (adjustCFrame : CFrame → CFrame)
    (getComponent : WorldObject → Bool) (currencies : List C) (genGUID : String)
    (userId : Nat) (st : State C) (registerUUID : String) (position : Option CFrame)
    (reg : Register C) (hreg : registry registerUUID = some reg)
    (hbuy : reg.price PricingExchangeType.BUY = none) :
    (PurchaseItem registry adjustCFrame getComponent currencies genGUID userId st
        registerUUID position).outcome = .err .FORBIDDEN ∧
    (PurchaseItem registry adjustCFrame getComponent currencies genGUID userId st
        registerUUID position).state = st := by
  unfold PurchaseItem
  rw [hreg]
  dsimp only
  rw [hbuy]
  exact ⟨rfl, rfl⟩

/-- Witness for `purchaseItem_noBuy_forbidden` at the concrete register T3. -/
theorem purchaseItem_noBuy_forbidden_example :
    (PurchaseItem exRegistry exAdjust exBindOk exCurrencies "g1" 7 exState "T3"
        none).outcome = .err .FORBIDDEN ∧
    (PurchaseItem exRegistry exAdjust exBindOk exCurrencies "g1" 7 exState "T3"
        none).state = exState :=
  purchaseItem_noBuy_forbidden exRegistry exAdjust exBindOk exCurrencies "g1" 7 exState
    "T3" none exRegT3 rfl rfl

/-- Claim C4: for every template id absent from the registry, `PurchaseItem`
and `CreateItem` both return the `NOT_FOUND` error and leave the whole user
state — balances and `placedItems` included — unchanged. -/
theorem notFound_no_mutation {C : Type} [DecidableEq C]
    (registry : String → Option (Register C)) (adjustCFrame : CFrame → CFrame)
    (getComponent : WorldObject → Bool) (currencies : List C) (genGUID : String)
    (userId : Nat) (st : State C) (registerUUID instanceUUID : String)
    (position cframeArg : Option CFrame) (hreg : registry registerUUID = none) :
    (PurchaseItem registry adjustCFrame getComponent currencies genGUID userId st
        registerUUID position).outcome = .err .NOT_FOUND ∧
    (PurchaseItem registry adjustCFrame getComponent currencies genGUID userId st
        registerUUID position).state = st ∧
    (CreateItem registry adjustCFrame getComponent userId st registerUUID instanceUUID
        cframeArg).outcome = .err .NOT_FOUND ∧
    (CreateItem registry adjustCFrame getComponent userId st registerUUID instanceUUID
        cframeArg).state = st := by
  unfold PurchaseItem CreateItem
  rw [hreg]
  exact ⟨rfl, rfl, rfl, rfl⟩

/-- Witness for `notFound_no_mutation` at the concrete absent id ghost. -/
theorem notFound_no_mutation_example :
    (PurchaseItem exRegistry exAdjust exBindOk exCurrencies "g1" 7 exState "ghost"
        none).outcome = .err .NOT_FOUND ∧
    (PurchaseItem exRegistry exAdjust exBindOk exCurrencies "g1" 7 exState "ghost"
        none).state = exState ∧
    (CreateItem exRegistry exAdjust exBindOk 7 exState "ghost" "i1"
        none).outcome = .err .NOT_FOUND ∧
    (CreateItem exRegistry exAdjust exBindOk 7 exState "ghost" "i1"
        none).state = exState :=
  notFound_no_mutation exRegistry exAdjust exBindOk exCurrencies "g1" 7 exState "ghost"
    "i1" none none rfl

/-- Claim C5: when `CreateItem` is called with no supplied pose, the candidate
pose it applies first (before normalization) has both horizontal coordinates
zero and puts the anchor point (the bottom of the primary part) exactly at
the ground reference y = 0. -/
theorem createItem_default_pose {C : Type}
    (registry : String → Option (Register C)) (adjustCFrame : CFrame → CFrame)
    (getComponent : WorldObject → Bool) (userId : Nat) (st : State C)
    (registerUUID instanceUUID : String) (reg : Register C)
    (hreg : registry registerUUID = some reg) :
    (CreateItem registry adjustCFrame getComponent userId st registerUUID instanceUUID
        none).trace.head? = some (.applyPose (defaultCFrame reg)) ∧
    (defaultCFrame reg).x = 0 ∧ (defaultCFrame reg).z = 0 ∧
    anchorY (defaultCFrame reg) reg.primaryPartSizeY = 0 := by
  refine ⟨?_, rfl, rfl, ?_⟩
  · unfold CreateItem
    rw [hreg]
    dsimp only
    split <;> rfl
  · simp [anchorY, defaultCFrame]

/-- Witness for `createItem_default_pose` at the concrete register T1 (height
4, so the candidate pose is (0, 2, 0) and the anchor sits at y = 0). -/
theorem createItem_default_pose_example :
    (CreateItem exRegistry exAdjust exBindOk 7 exState "T1" "i1"
        none).trace.head? = some (.applyPose (defaultCFrame exRegT1)) ∧
    (defaultCFrame exRegT1).x = 0 ∧ (defaultCFrame exRegT1).z = 0 ∧
    anchorY (defaultCFrame exRegT1) exRegT1.primaryPartSizeY = 0 :=
  createItem_default_pose exRegistry exAdjust exBindOk 7 exState "T1" "i1" exRegT1 rfl

/-- Claim C1: whenever some currency's required BUY amount (zero when
unspecified) exceeds the user's balance for that currency, `PurchaseItem`
returns the `FORBIDDEN` error and leaves the whole state — in particular
every currency balance — unchanged: the check precedes any debit. -/
theorem purchaseItem_insufficient_forbidden {C : Type} [DecidableEq C]
    (registry : String → Option (Register C)) (adjustCFrame : CFrame → CFrame)
    (getComponent : WorldObject → Bool) (currencies : List C) (genGUID : String)
    (userId : Nat) (st : State C) (registerUUID : String) (position : Option CFrame)
    (reg : Register C) (hreg : registry registerUUID = some reg)
    (hins : ∃ c ∈ currencies, st.balances c < (registerRequired reg c : Int)) :
    (PurchaseItem registry adjustCFrame getComponent currencies genGUID userId st
        registerUUID position).outcome = .err .FORBIDDEN ∧
    (PurchaseItem registry adjustCFrame getComponent currencies genGUID userId st
        registerUUID position).state = st := by
  obtain ⟨c, hc, hlt⟩ := hins
  unfold PurchaseItem
  rw [hreg]
  dsimp only
  cases hbuy : reg.price PricingExchangeType.BUY with
  | none => exact ⟨rfl, rfl⟩
  | some buyTable =>
      rw [registerRequired, hbuy] at hlt
      dsimp only at hlt ⊢
      have hany : (currencies.any fun c =>
          decide (st.balances c < (requiredAmount buyTable c : Int))) = true :=
        List.any_eq_true.mpr ⟨c, hc, by simpa using hlt⟩
      rw [if_pos hany]
      exact ⟨rfl, rfl⟩

/-- Witness for `purchaseItem_insufficient_forbidden` at the concrete
register T2 (costs 200 GOLD against a balance of 100). -/
theorem purchaseItem_insufficient_forbidden_example :
    exState.balances "GOLD" < (registerRequired exRegT2 "GOLD" : Int) ∧
    (PurchaseItem exRegistry exAdjust exBindOk exCurrencies "g1" 7 exState "T2"
        none).outcome = .err .FORBIDDEN ∧
    (PurchaseItem exRegistry exAdjust exBindOk exCurrencies "g1" 7 exState "T2"
        none).state = exState :=
  ⟨by decide,
   purchaseItem_insufficient_forbidden exRegistry exAdjust exBindOk exCurrencies "g1" 7
     exState "T2" none exRegT2 rfl ⟨"GOLD", by decide, by decide⟩⟩

/-- Claim C7: starting from componentwise non-negative balances, every
service operation — `PurchaseItem`, `CreateItem` and `GetItem` — leaves every
balance non-negative, whatever its outcome: a debit that would go negative is
rejected with `FORBIDDEN` before any mutation. -/
theorem balances_stay_nonneg {C : Type} [DecidableEq C]
    (registry : String → Option (Register C)) (adjustCFrame : CFrame → CFrame)
    (getComponent : WorldObject → Bool) (currencies : List C) (genGUID : String)
    (userId : Nat) (st : State C) (registerUUID registerUUID2 instanceUUID uuid : String)
    (position cframeArg : Option CFrame)
    (hnd : currencies.Nodup) (h0 : ∀ c, 0 ≤ st.balances c) :
    (∀ c, 0 ≤ (PurchaseItem registry adjustCFrame getComponent currencies genGUID userId
        st registerUUID position).state.balances c) ∧
    (∀ c, 0 ≤ (CreateItem registry adjustCFrame getComponent userId st registerUUID2
        instanceUUID cframeArg).state.balances c) ∧
    (∀ c, 0 ≤ (GetItem getComponent st uuid).2.balances c) := by
  refine ⟨?_, ?_, ?_⟩
  · intro c
    unfold PurchaseItem
    cases registry registerUUID with
    | none => exact h0 c
    | some reg =>
        dsimp only
        cases reg.price PricingExchangeType.BUY with
        | none => exact h0 c
        | some buyTable =>
            dsimp only
            cases hany : (currencies.any fun c =>
                decide (st.balances c < (requiredAmount buyTable c : Int))) with
            | true => simpa using h0 c
            | false =>
                simp only [Bool.false_eq_true, if_false]
                rw [CreateItem_balances]
                dsimp only
                rw [debitBalances_eq currencies hnd]
                by_cases hmem : c ∈ currencies
                · rw [if_pos hmem]
                  have hle := List.any_eq_false.mp hany c hmem
                  simp only [decide_eq_true_eq, not_lt] at hle
                  omega
                · rw [if_neg hmem]
                  exact h0 c
  · intro c
    rw [CreateItem_balances]
    exact h0 c
  · intro c
    rw [GetItem_state]
    exact h0 c

/-- Witness for `balances_stay_nonneg` in the concrete setup (buying T1 for
50 GOLD out of 100). -/
theorem balances_stay_nonneg_example :
    (∀ c, 0 ≤ (PurchaseItem exRegistry exAdjust exBindOk exCurrencies "g1" 7 exState
        "T1" none).state.balances c) ∧
    (∀ c, 0 ≤ (CreateItem exRegistry exAdjust exBindOk 7 exState "T1" "i1"
        none).state.balances c) ∧
    (∀ c, 0 ≤ (GetItem exBindOk exState "i1").2.balances c) :=
  balances_stay_nonneg exRegistry exAdjust exBindOk exCurrencies "g1" 7 exState "T1"
    "T1" "i1" "i1" none none (by decide)
    (fun c => by unfold exState exBalances; dsimp only; split <;> decide)

/-- Claim C2: every successful `PurchaseItem` call debits each currency's
balance by exactly the template's BUY price for that currency (zero when
unspecified) and appends exactly one new entry — keyed by the generated
instance UUID — to the user's `placedItems`. The currency list is an enum
member list (duplicate-free) and the generated GUID is fresh, per the GUID
generator's contract. -/
theorem purchaseItem_ok_debits_and_places {C : Type} [DecidableEq C]
    (registry : String → Option (Register C)) (adjustCFrame : CFrame → CFrame)
    (getComponent : WorldObject → Bool) (currencies : List C) (genGUID : String)
    (userId : Nat) (st : State C) (registerUUID : String) (position : Option CFrame)
    (reg : Register C) (item : WorldObject)
    (hnd : currencies.Nodup)
    (hreg : registry registerUUID = some reg)
    (hfresh : ∀ p ∈ st.placedItems, p.1 ≠ genGUID)
    (hok : (PurchaseItem registry adjustCFrame getComponent currencies genGUID userId st
        registerUUID position).outcome = .ok item) :
    (∀ c ∈ currencies,
      (PurchaseItem registry adjustCFrame getComponent currencies genGUID userId st
          registerUUID position).state.balances c
        = st.balances c - (registerRequired reg c : Int)) ∧
    (PurchaseItem registry adjustCFrame getComponent currencies genGUID userId st
        registerUUID position).state.placedItems = st.placedItems ++ [(genGUID, item)] := by
  revert hok
  unfold PurchaseItem
  rw [hreg]
  dsimp only
  cases hbuy : reg.price PricingExchangeType.BUY with
  | none => intro hok; simp at hok
  | some buyTable =>
      dsimp only
      cases hany : (currencies.any fun c =>
          decide (st.balances c < (requiredAmount buyTable c : Int))) with
      | true => intro hok; simp at hok
      | false =>
          simp only [Bool.false_eq_true, if_false]
          unfold CreateItem
          rw [hreg]
          dsimp only
          cases hgc : getComponent (spawnedModel reg userId genGUID registerUUID
              (position.getD (defaultCFrame reg))) with
          | false => intro hok; simp at hok
          | true =>
              rw [if_pos rfl]
              intro hok
              simp only [Outcome.ok.injEq] at hok
              subst hok
              constructor
              · intro c hc
                dsimp only
                rw [debitBalances_eq currencies hnd, if_pos hc, registerRequired, hbuy]
              · dsimp only
                exact setEntry_fresh st.placedItems genGUID _ hfresh

/-- Witness for `purchaseItem_ok_debits_and_places`: buying T1 (50 GOLD) from
a balance of 100 with fresh GUID g1 yields the component and the expected
debit and placement. -/
theorem purchaseItem_ok_debits_and_places_example :
    (∀ c ∈ exCurrencies,
      (PurchaseItem exRegistry exAdjust exBindOk exCurrencies "g1" 7 exState "T1"
          none).state.balances c
        = exState.balances c - (registerRequired exRegT1 c : Int)) ∧
    (PurchaseItem exRegistry exAdjust exBindOk exCurrencies "g1" 7 exState "T1"
        none).state.placedItems = exState.placedItems ++ [("g1", exComponentT1)] :=
  purchaseItem_ok_debits_and_places exRegistry exAdjust exBindOk exCurrencies "g1" 7
    exState "T1" none exRegT1 exComponentT1 (by decide) rfl (by decide) rfl

/-- Claim C6: on every successful `CreateItem` call the observable step order
is — apply the unnormalized candidate pose, parent the model into the
workspace, tag it, bind it, then apply the normalized pose — and the returned
item's final pose is the normalizer's output on the candidate pose. -/
theorem createItem_pose_order {C : Type}
    (registry : String → Option (Register C)) (adjustCFrame : CFrame → CFrame)
    (getComponent : WorldObject → Bool) (userId : Nat) (st : State C)
    (registerUUID instanceUUID : String) (cframeArg : Option CFrame)
    (reg : Register C) (item : WorldObject)
    (hreg : registry registerUUID = some reg)
    (hok : (CreateItem registry adjustCFrame getComponent userId st registerUUID
        instanceUUID cframeArg).outcome = .ok item) :
    (CreateItem registry adjustCFrame getComponent userId st registerUUID instanceUUID
        cframeArg).trace =
      [Event.applyPose (cframeArg.getD (defaultCFrame reg)), Event.spawn, Event.tag,
       Event.bind, Event.applyPose (adjustCFrame (cframeArg.getD (defaultCFrame reg)))] ∧
    item.pose = adjustCFrame (cframeArg.getD (defaultCFrame reg)) := by
  revert hok
  unfold CreateItem
  rw [hreg]
  dsimp only
  cases hgc : getComponent (spawnedModel reg userId instanceUUID registerUUID
      (cframeArg.getD (defaultCFrame reg))) with
  | false => intro hok; simp at hok
  | true =>
      rw [if_pos rfl]
      intro hok
      simp only [Outcome.ok.injEq] at hok
      subst hok
      exact ⟨rfl, rfl⟩

/-- Witness for `createItem_pose_order` at the concrete register T1 with no
supplied pose. -/
theorem createItem_pose_order_example :
    (CreateItem exRegistry exAdjust exBindOk 7 exState "T1" "g1" none).trace =
      [Event.applyPose ((none : Option CFrame).getD (defaultCFrame exRegT1)), Event.spawn,
       Event.tag, Event.bind,
       Event.applyPose (exAdjust ((none : Option CFrame).getD (defaultCFrame exRegT1)))] ∧
    exComponentT1.pose = exAdjust ((none : Option CFrame).getD (defaultCFrame exRegT1)) :=
  createItem_pose_order exRegistry exAdjust exBindOk 7 exState "T1" "g1" none exRegT1
    exComponentT1 rfl rfl

/-- Claim C8: every typed-error return of `CreateItem` happens before any
object is spawned (the state, workspace included, is untouched), and a binder
that fails to produce a component for the freshly spawned tagged model makes
`CreateItem` abort abnormally (failed `assert`) rather than return a typed
error. -/
theorem createItem_error_paths {C : Type}
    (registry : String → Option (Register C)) (adjustCFrame : CFrame → CFrame)
    (getComponent : WorldObject → Bool) (userId : Nat) (st : State C)
    (registerUUID instanceUUID : String) (cframeArg : Option CFrame) :
    (∀ e, (CreateItem registry adjustCFrame getComponent userId st registerUUID
        instanceUUID cframeArg).outcome = .err e →
      (CreateItem registry adjustCFrame getComponent userId st registerUUID instanceUUID
          cframeArg).state = st) ∧
    (∀ reg, registry registerUUID = some reg →
      getComponent (spawnedModel reg userId instanceUUID registerUUID
          (cframeArg.getD (defaultCFrame reg))) = false →
      (CreateItem registry adjustCFrame getComponent userId st registerUUID instanceUUID
          cframeArg).outcome = .panic) := by
  constructor
  · intro e
    unfold CreateItem
    cases registry registerUUID with
    | none => intro _; rfl
    | some reg =>
        dsimp only
        cases hgc : getComponent (spawnedModel reg userId instanceUUID registerUUID
            (cframeArg.getD (defaultCFrame reg))) with
        | true =>
            rw [if_pos rfl]
            intro he
            simp at he
        | false =>
            simp only [Bool.false_eq_true, if_false]
            intro he
            simp at he
  · intro reg hreg hgc
    unfold CreateItem
    rw [hreg]
    dsimp only
    rw [if_neg (by rw [hgc]; simp)]

/-- Witness for `createItem_error_paths`: the `NOT_FOUND` return for ghost
spawns nothing, and a failing binder on T1 ends in an abnormal abort. -/
theorem createItem_error_paths_example :
    (CreateItem exRegistry exAdjust exBindFail 7 exState "ghost" "i1" none).state
      = exState ∧
    (CreateItem exRegistry exAdjust exBindFail 7 exState "T1" "i1" none).outcome
      = .panic :=
  ⟨(createItem_error_paths exRegistry exAdjust exBindFail 7 exState "ghost" "i1"
      none).1 GenericError.NOT_FOUND rfl,
   (createItem_error_paths exRegistry exAdjust exBindFail 7 exState "T1" "i1"
      none).2 exRegT1 rfl rfl⟩

/-- Counterexample to claim C9 as stated: on the concrete never-created id
ghost (empty workspace), `GetItem` does not return "absent" — `WaitForChild`
has no timeout argument, so the call never returns at all (the outer `none`). -/
theorem getItem_ghost_no_absent :
    (GetItem exBindOk exState "ghost").1 = none ∧
    ¬((GetItem exBindOk exState "ghost").1 = some none) := by
  have h1 : (GetItem exBindOk exState "ghost").1 = none := rfl
  refine ⟨h1, ?_⟩
  intro h
  rw [h1] at h
  exact Option.noConfusion h

/-- Claim C9 (amended): for every instance id that no workspace object
carries as its name — in particular one for which no item was ever created —
`GetItem` never returns (it waits on `WaitForChild` forever, there being no
timeout bound), and it mutates no state. -/
theorem getItem_never_created_diverges {C : Type} (getComponent : WorldObject → Bool)
    (st : State C) (uuid : String) (habs : ∀ o ∈ st.workspace, o.name ≠ uuid) :
    (GetItem getComponent st uuid).1 = none ∧ (GetItem getComponent st uuid).2 = st := by
  unfold GetItem
  have hfind : st.workspace.find? (fun o => o.name == uuid) = none := by
    rw [List.find?_eq_none]
    intro o ho
    simpa using habs o ho
  rw [hfind]
  exact ⟨rfl, rfl⟩

/-- Witness for `getItem_never_created_diverges` at the concrete id ghost. -/
theorem getItem_never_created_diverges_example :
    (GetItem exBindOk exStateDup "ghost").1 = none ∧
    (GetItem exBindOk exStateDup "ghost").2 = exStateDup :=
  getItem_never_created_diverges exBindOk exStateDup "ghost" (by decide)

/-- Claim C10: `CreateItem` performs no uniqueness check on a caller-supplied
instance id: called with the id of an already-placed item it succeeds, its
`placedItems` entry replaces the existing entry for that key (same number of
entries, lookup yields the new component), and the workspace ends up holding
both the old object and the new one under the same name. -/
theorem createItem_duplicate_id_overwrites {C : Type}
    (registry : String → Option (Register C)) (adjustCFrame : CFrame → CFrame)
    (getComponent : WorldObject → Bool) (userId : Nat) (st : State C)
    (registerUUID instanceUUID : String) (cframeArg : Option CFrame)
    (reg : Register C) (old : WorldObject)
    (hreg : registry registerUUID = some reg)
    (hmem : (instanceUUID, old) ∈ st.placedItems)
    (hws : old ∈ st.workspace)
    (hname : old.name = instanceUUID)
    (hgc : getComponent (spawnedModel reg userId instanceUUID registerUUID
        (cframeArg.getD (defaultCFrame reg))) = true) :
    ∃ item : WorldObject,
      (CreateItem registry adjustCFrame getComponent userId st registerUUID instanceUUID
          cframeArg).outcome = .ok item ∧
      item.name = instanceUUID ∧ old.name = item.name ∧
      (CreateItem registry adjustCFrame getComponent userId st registerUUID instanceUUID
          cframeArg).state.placedItems.length = st.placedItems.length ∧
      getEntry (CreateItem registry adjustCFrame getComponent userId st registerUUID
          instanceUUID cframeArg).state.placedItems instanceUUID = some item ∧
      old ∈ (CreateItem registry adjustCFrame getComponent userId st registerUUID
          instanceUUID cframeArg).state.workspace ∧
      item ∈ (CreateItem registry adjustCFrame getComponent userId st registerUUID
          instanceUUID cframeArg).state.workspace := by
  have hany : st.placedItems.any (fun p => p.1 == instanceUUID) = true :=
    List.any_eq_true.mpr ⟨(instanceUUID, old), hmem, by simp⟩
  unfold CreateItem
  rw [hreg]
  dsimp only
  rw [if_pos (by rw [hgc])]
  refine ⟨_, rfl, rfl, hname, ?_, ?_, ?_, ?_⟩
  · exact setEntry_length_of_mem st.placedItems instanceUUID _ hany
  · exact getEntry_setEntry_of_mem st.placedItems instanceUUID _ hany
  · exact List.mem_append_left _ hws
  · exact List.mem_append_right _ (List.mem_singleton.mpr rfl)

/-- Witness for `createItem_duplicate_id_overwrites`: re-creating id dup over
the already-placed exOld succeeds and replaces its entry. -/
theorem createItem_duplicate_id_overwrites_example :
    ∃ item : WorldObject,
      (CreateItem exRegistry exAdjust exBindOk 7 exStateDup "T1" "dup"
          (some ⟨5, 6, 7⟩)).outcome = .ok item ∧
      item.name = "dup" ∧ exOld.name = item.name ∧
      (CreateItem exRegistry exAdjust exBindOk 7 exStateDup "T1" "dup"
          (some ⟨5, 6, 7⟩)).state.placedItems.length = exStateDup.placedItems.length ∧
      getEntry (CreateItem exRegistry exAdjust exBindOk 7 exStateDup "T1" "dup"
          (some ⟨5, 6, 7⟩)).state.placedItems "dup" = some item ∧
      exOld ∈ (CreateItem exRegistry exAdjust exBindOk 7 exStateDup "T1" "dup"
          (some ⟨5, 6, 7⟩)).state.workspace ∧
      item ∈ (CreateItem exRegistry exAdjust exBindOk 7 exStateDup "T1" "dup"
          (some ⟨5, 6, 7⟩)).state.workspace :=
  createItem_duplicate_id_overwrites exRegistry exAdjust exBindOk 7 exStateDup "T1"
    "dup" (some ⟨5, 6, 7⟩) exRegT1 exOld rfl (by decide) (by decide) rfl rfl

end ItemServiceModel
